import Mathlib

/-!
Verification development for an automated signal-driven trading strategy
runner (a single Python source file, main.py).  The program pulls daily
price series for a universe of equities, computes RSI and 50/200-bar
moving averages, decides buy/sell/hold per instrument, submits orders to
a brokerage gateway, and keeps a local pickle cache of fetched series
that is invalidated daily.

Embedding conventions:
* Machine floats are modelled as exact rationals (ℚ).  The two places
  where IEEE special values matter are modelled explicitly: pandas
  produces NaN for indicator cells with insufficient history (modelled
  as `Option ℚ` with `none` for NaN), and the RSI division
  `avg_gain / avg_loss` with `avg_loss = 0` yields RSI = 100 when
  `avg_gain > 0` (rs = +inf) and NaN when `avg_gain = 0` (rs = 0/0).
* A pandas DataFrame is modelled as a `Frame`: the Close column as a
  list of closes, and each derived column as an optional total function
  from row index to optional cell value (`none` = column absent,
  cell `none` = NaN).  Assigning a column to a DataFrame mutates it in
  place and the function returns the same object, so the Lean function
  modelling it returns the post-state of its argument.
* External collaborators (yfinance, the Alpaca account / orders /
  positions endpoints) are modelled as an oracle `Env` giving the
  responses the remote services would return; a Python exception is
  modelled as `Except.error`, and the top-level loop (which has no
  try/except) propagates it.
* Time is measured in hours (ℚ); `datetime.timedelta(hours = h)`
  comparisons become comparisons of rational hour counts.
-/

set_option maxRecDepth 1000000

/-! ## Indicator engine (calculate_rsi, calculate_moving_averages) -/

/-- Indexing into a price series; only in-range indices are ever used. -/
def getQ (l : List ℚ) (i : ℕ) : ℚ := l.getD i 0

/-- Cell i of the positive-delta series. Source: delta = Close.diff(1);
gain = delta.where(delta gt 0, 0.0). Row 0 of diff is NaN, and
NaN.where gives the fill value 0.0. -/
def gainAt (close : List ℚ) (i : ℕ) : ℚ :=
  if i = 0 then 0 else max (getQ close i - getQ close (i - 1)) 0

/-- Cell i of the negative-delta series. Source:
loss = -delta.where(delta lt 0, 0.0). -/
def lossAt (close : List ℚ) (i : ℕ) : ℚ :=
  if i = 0 then 0 else max (getQ close (i - 1) - getQ close i) 0

/-- Sum of the w values ending at row i (the rolling window). -/
def windowSum (f : ℕ → ℚ) (i w : ℕ) : ℚ :=
  ((List.range w).map (fun k => f (i - k))).sum

/-- Cell i of rolling(window = w, min_periods = w).mean() over a series
with no NaN cells: defined exactly when the window is full. -/
def rollingMeanAt (f : ℕ → ℚ) (w i : ℕ) : Option ℚ :=
  if i + 1 < w then none else some (windowSum f i w / (w : ℚ))

/-- Cell i of the RSI column built by calculate_rsi:
rs = avg_gain / avg_loss; rsi = 100 - 100 / (1 + rs).  With floats,
avg_loss = 0 and avg_gain gt 0 give rs = +inf hence rsi = 100.0, and
avg_gain = avg_loss = 0 gives rs = NaN hence rsi = NaN. -/
def rsiAt (close : List ℚ) (i : ℕ) : Option ℚ :=
  match rollingMeanAt (gainAt close) 14 i, rollingMeanAt (lossAt close) 14 i with
  | some g, some l =>
      if l = 0 then (if g = 0 then none else some 100)
      else some (100 - 100 / (1 + g / l))
  | _, _ => none

/-- Cell i of Close.rolling(window = w).mean(). -/
def maAt (close : List ℚ) (w i : ℕ) : Option ℚ :=
  rollingMeanAt (fun j => getQ close j) w i

/-- Model of a pandas DataFrame holding one price series: the Close
column plus the derived indicator columns (absent until assigned). -/
structure Frame where
  close : List ℚ
  rsi : Option (ℕ → Option ℚ) := none
  ma50 : Option (ℕ → Option ℚ) := none
  ma200 : Option (ℕ → Option ℚ) := none

/-- Reading cell i of an optional column. -/
def colAt (col : Option (ℕ → Option ℚ)) (i : ℕ) : Option ℚ :=
  match col with
  | some f => f i
  | none => none

/-- Source function calculate_rsi(data, window=14): assigns the RSI
column on its argument in place and returns the same object, so this
definition is both the returned frame and the post-state of the input. -/
def calculate_rsi (data : Frame) : Frame :=
  { data with rsi := some (fun i => rsiAt data.close i) }

/-- Source function calculate_moving_averages(data, 50, 200): assigns
the 50_MA and 200_MA columns on its argument in place and returns the
same object. -/
def calculate_moving_averages (data : Frame) : Frame :=
  { data with
    ma50 := some (fun i => maAt data.close 50 i)
    ma200 := some (fun i => maAt data.close 200 i) }

/-! ## Module-level constants -/

/-- RISK_PERCENTAGE = 0.02. -/
def RISK_PERCENTAGE : ℚ := 2 / 100

/-- COOLDOWN_PERIOD_HOURS = 720. -/
def COOLDOWN_PERIOD_HOURS : ℚ := 720

/-! ## External collaborators (Alpaca and yfinance responses) -/

/-- Outcome of yf.download for one ticker: either a close series or a
raised exception (network and similar failures of the remote source). -/
inductive FetchResult where
  | ok (close : List ℚ)
  | err
deriving DecidableEq

/-- Oracle for every remote response observed during one run, plus the
current wall-clock time in hours. -/
structure Env where
  data : String → FetchResult
  accountStatus : ℕ
  cash : Option ℚ
  buyingPower : Option ℚ
  accountFlag : String
  lastBuy : String → Option ℚ
  posStatus : String → ℕ
  posBody : String → ℚ × ℚ
  now : ℚ

/-- Source function get_account_balance(): non-200 raises; otherwise the
cash field is used if present, else buying_power, else a KeyError is
raised. -/
def get_account_balance (env : Env) : Except Unit (ℚ × String) :=
  if env.accountStatus ≠ 200 then Except.error ()
  else
    match env.cash with
    | some c => Except.ok (c, env.accountFlag)
    | none =>
      match env.buyingPower with
      | some b => Except.ok (b, env.accountFlag)
      | none => Except.error ()

/-- Source function get_position(ticker): 200 parses (qty,
avg_entry_price); 404 means no position and returns (0, 0); any other
status prints an error and also returns (0, 0). -/
def get_position (env : Env) (ticker : String) : ℚ × ℚ :=
  if env.posStatus ticker = 200 then env.posBody ticker
  else if env.posStatus ticker = 404 then (0, 0)
  else (0, 0)

/-- Source function calculate_shares_to_buy(current_price, balance):
floor division of the 2 percent risk amount by the price. -/
def calculate_shares_to_buy (currentPrice balance : ℚ) : ℤ :=
  (balance * RISK_PERCENTAGE / currentPrice).floor

/-! ## Trade decision, orders and notifications -/

/-- The per-symbol decision implicit in which branch of
execute_strategy runs. -/
inductive Decision where
  | buy (shares : ℤ)
  | sell (qty : ℚ)
  | hold
deriving DecidableEq

/-- An order submitted to the brokerage (place_buy_order uses an integer
share count, place_sell_order the float position quantity). -/
inductive Order where
  | buyOrder (ticker : String) (qty : ℤ)
  | sellOrder (ticker : String) (qty : ℚ)
deriving DecidableEq

/-- A notification handed to send_sms. -/
inductive SmsEvent where
  | balanceAlert
  | buyPlaced (ticker : String) (shares : ℤ)
  | sellPlaced (ticker : String) (qty : ℚ)
deriving DecidableEq

/-- Observable result of one execute_strategy call: the decision taken,
the orders placed and the notifications sent. -/
structure StratResult where
  decision : Decision
  orders : List Order
  sms : List SmsEvent
deriving DecidableEq

/-- The buy / sell / hold cascade at the end of execute_strategy,
reached once the data, balance and cooldown gates have passed. -/
def tradeStep (ticker : String) (m50 m200 r price balance posQty : ℚ) : StratResult :=
  if m50 > m200 ∧ r < 30 ∧ posQty = 0 then
    let shares := calculate_shares_to_buy price balance
    if shares > 0 then
      ⟨Decision.buy shares, [Order.buyOrder ticker shares], [SmsEvent.buyPlaced ticker shares]⟩
    else ⟨Decision.hold, [], []⟩
  else if m50 < m200 ∧ r > 70 ∧ posQty > 0 then
    ⟨Decision.sell posQty, [Order.sellOrder ticker posQty], [SmsEvent.sellPlaced ticker posQty]⟩
  else ⟨Decision.hold, [], []⟩

/-- Source function execute_strategy(ticker, stock_data).  It enriches
the frame in place, returns early (Hold) on short history, NaN
indicators, non-positive balance (after alerting) or an active
cooldown, and otherwise runs the buy / sell cascade.  A raise inside
get_account_balance propagates as Except.error. -/
def execute_strategy (env : Env) (ticker : String) (stockData : Frame) :
    Except Unit StratResult :=
  let d1 := calculate_rsi stockData
  let d2 := calculate_moving_averages d1
  if d2.close.length < 200 then Except.ok ⟨Decision.hold, [], []⟩
  else
    let i := d2.close.length - 1
    let m50o := colAt d2.ma50 i
    let m200o := colAt d2.ma200 i
    let ro := colAt d2.rsi i
    if m50o = none ∨ m200o = none ∨ ro = none then Except.ok ⟨Decision.hold, [], []⟩
    else
      match get_account_balance env with
      | Except.error e => Except.error e
      | Except.ok (balance, _flag) =>
        if balance ≤ 0 then Except.ok ⟨Decision.hold, [], [SmsEvent.balanceAlert]⟩
        else
          let m50 := m50o.getD 0
          let m200 := m200o.getD 0
          let r := ro.getD 0
          let posQty := (get_position env ticker).1
          let price := getQ d2.close i
          match env.lastBuy ticker with
          | some tb =>
            if env.now - tb < COOLDOWN_PERIOD_HOURS then Except.ok ⟨Decision.hold, [], []⟩
            else Except.ok (tradeStep ticker m50 m200 r price balance posQty)
          | none => Except.ok (tradeStep ticker m50 m200 r price balance posQty)

/-! ## Cache store (pickle dict keyed by date and tickers) -/

/-- One per-ticker cache dict.  The source only ever assigns the key
data (the fetched series); the trade-metadata keys the specification
describes (held quantity, last action, last action timestamp, purchase
date) are modelled as further optional fields so that their absence is
observable. -/
structure CacheEntry where
  data : Option Frame := none
  heldQty : Option ℚ := none
  lastAction : Option Decision := none
  lastActionTime : Option ℚ := none
  purchaseDate : Option ℚ := none

/-- The whole pickle dict: the date key plus the ticker entries. -/
structure Cache where
  date : Option String
  entries : List (String × CacheEntry)

/-- Lookup of a ticker key in the cache dict. -/
def lookupEntry : List (String × CacheEntry) → String → Option CacheEntry
  | [], _ => none
  | (k, v) :: rest, t => if k = t then some v else lookupEntry rest t

/-- Assignment of a ticker key in the cache dict. -/
def setEntry : List (String × CacheEntry) → String → CacheEntry → List (String × CacheEntry)
  | [], t, e => [(t, e)]
  | (k, v) :: rest, t, e =>
    if k = t then (k, e) :: rest else (k, v) :: setEntry rest t e

/-- Replacing the data value of an existing ticker entry (used to model
that the cached series object is the very object execute_strategy
enriches in place). -/
def updateEntryData : List (String × CacheEntry) → String → Frame → List (String × CacheEntry)
  | [], _, _ => []
  | (k, v) :: rest, t, f =>
    if k = t then (k, { v with data := some f }) :: rest
    else (k, v) :: updateEntryData rest t f

/-- The data series stored for a ticker, if any: the test
(ticker in cache and data-key in cache of ticker) of fetch_stock_data. -/
def entryData (cache : Cache) (ticker : String) : Option Frame :=
  match lookupEntry cache.entries ticker with
  | some e => e.data
  | none => none

/-- The trade-metadata fields stored for a ticker, if the ticker has an
entry at all. -/
def metaOf (cache : Cache) (ticker : String) :
    Option (Option ℚ × Option Decision × Option ℚ × Option ℚ) :=
  (lookupEntry cache.entries ticker).map
    (fun e => (e.heldQty, e.lastAction, e.lastActionTime, e.purchaseDate))

/-- The empty dict returned by load_cache when no cache file exists. -/
def emptyCache : Cache := { date := none, entries := [] }

/-- State of the persistent cache file on disk. -/
inductive FileState where
  | missing
  | valid (c : Cache)
  | corrupt

/-- Source function load_cache(): returns the empty dict when the file
does not exist, unpickles it when it is readable, and propagates the
exception pickle.load raises when the file is corrupt or unreadable. -/
def load_cache : FileState → Except Unit Cache
  | FileState.missing => Except.ok emptyCache
  | FileState.valid c => Except.ok c
  | FileState.corrupt => Except.error ()

/-- Source function clear_cache_if_needed(cache, date_str): a missing or
stale date key resets the store to a fresh dict holding only the new
date; a matching date key returns the store unchanged. -/
def clear_cache_if_needed (cache : Cache) (dateStr : String) : Cache :=
  if cache.date ≠ some dateStr then { date := some dateStr, entries := [] }
  else cache

/-- Cache-miss path of fetch_stock_data: call yf.download (propagating a
raised exception), create the ticker entry if absent, assign its data
key, and save the cache.  The Bool records that a remote fetch
happened. -/
def fetchMiss (env : Env) (ticker : String) (cache : Cache) :
    Except Unit (Frame × Cache × Bool) :=
  match env.data ticker with
  | FetchResult.err => Except.error ()
  | FetchResult.ok closes =>
    let baseEntry :=
      match lookupEntry cache.entries ticker with
      | some e => e
      | none => {}
    let frame : Frame := { close := closes }
    let entry := { baseEntry with data := some frame }
    Except.ok (frame, { cache with entries := setEntry cache.entries ticker entry }, true)

/-- Source function fetch_stock_data(ticker, cache, date_str, period):
returns the cached series without any remote call when the ticker entry
has a data key, and otherwise takes the cache-miss path. -/
def fetch_stock_data (env : Env) (ticker : String) (cache : Cache) :
    Except Unit (Frame × Cache × Bool) :=
  match lookupEntry cache.entries ticker with
  | some e =>
    match e.data with
    | some d => Except.ok (d, cache, false)
    | none => fetchMiss env ticker cache
  | none => fetchMiss env ticker cache

/-! ## Run orchestrator (the main block) -/

/-- Bool-valued prefix test on character lists, modelling
str.startswith. -/
def listStartsWith : List Char → List Char → Bool
  | [], _ => true
  | _ :: _, [] => false
  | p :: ps, c :: cs => p == c && listStartsWith ps cs

/-- The explicit denylist in the main loop: tickers starting with BRK
or BF are skipped before any processing. -/
def skipStock (t : String) : Bool :=
  listStartsWith "BRK".data t.data || listStartsWith "BF".data t.data

/-- Observable state of one run: the in-memory cache, the decision per
processed symbol, all orders and notifications, the number of
save_cache calls, whether an uncaught exception aborted the run, and
whether the final save_cache at the end of the main block executed. -/
structure RunState where
  cache : Cache
  outcomes : List (String × Decision)
  orders : List Order
  sms : List SmsEvent
  saveCount : ℕ
  aborted : Bool
  finalSaveDone : Bool

/-- One iteration of the main loop.  There is no try/except around the
body, so a raise from fetch_stock_data or execute_strategy marks the
run aborted and every later iteration is dead code.  On success the
cached series object, being the object execute_strategy enriched in
place, now carries the indicator columns. -/
def processStock (env : Env) (st : RunState) (t : String) : RunState :=
  if st.aborted then st
  else if skipStock t then st
  else
    match fetch_stock_data env t st.cache with
    | Except.error _ => { st with aborted := true }
    | Except.ok (frame, cache1, fetched) =>
      let saves := st.saveCount + (if fetched then 1 else 0)
      let enriched := calculate_moving_averages (calculate_rsi frame)
      let cache2 : Cache := { cache1 with entries := updateEntryData cache1.entries t enriched }
      match execute_strategy env t frame with
      | Except.error _ => { st with cache := cache2, saveCount := saves, aborted := true }
      | Except.ok r =>
        { st with
          cache := cache2
          saveCount := saves
          outcomes := st.outcomes ++ [(t, r.decision)]
          orders := st.orders ++ r.orders
          sms := st.sms ++ r.sms }

/-- The main loop over the instrument universe followed by the final
save_cache, which is reached only if no iteration raised. -/
def runMain (env : Env) (stocks : List String) (cache : Cache) : RunState :=
  let final := stocks.foldl (processStock env)
    { cache := cache, outcomes := [], orders := [], sms := [], saveCount := 0,
      aborted := false, finalSaveDone := false }
  if final.aborted then final
  else { final with saveCount := final.saveCount + 1, finalSaveDone := true }

/-- The whole main block: load the cache file (an unreadable file
raises, killing the process before the loop), validate its date, then
run the loop. -/
def mainFull (fs : FileState) (env : Env) (stocks : List String) (today : String) : RunState :=
  match load_cache fs with
  | Except.error _ =>
    { cache := emptyCache, outcomes := [], orders := [], sms := [], saveCount := 0,
      aborted := true, finalSaveDone := false }
  | Except.ok c => runMain env stocks (clear_cache_if_needed c today)

deriving instance DecidableEq for Except

/-! ## Concrete data for witnesses and counterexamples -/

/-- A 200-bar close series engineered so that on the last bar the 50-bar
mean (97.9) exceeds the 200-bar mean (31.975) while the last 14 deltas
are all losses (RSI = 0): the buy conditions hold there. -/
def demoSeries : List ℚ :=
  List.replicate 150 10 ++ List.replicate 36 100 ++
    [99, 98, 97, 96, 95, 94, 93, 92, 91, 90, 89, 88, 87, 86]

/-- The demo series as a freshly fetched frame. -/
def demoFrame : Frame := { close := demoSeries }

/-- Environment in which every fetch returns the demo series, the
account holds 10000 in cash, no position is open and no prior buy
exists. -/
def envBuy : Env :=
  { data := fun _ => FetchResult.ok demoSeries
    accountStatus := 200
    cash := some 10000
    buyingPower := none
    accountFlag := "ACTIVE"
    lastBuy := fun _ => none
    posStatus := fun _ => 404
    posBody := fun _ => (0, 0)
    now := 10000 }

/-- Like envBuy but the account cash is zero. -/
def envZero : Env := { envBuy with cash := some 0 }

/-- Like envBuy but fetching the ticker ERR raises. -/
def envErr : Env :=
  { envBuy with data := fun t => if t = "ERR" then FetchResult.err else FetchResult.ok demoSeries }

/-- Like envBuy but a buy was filled 100 hours before now. -/
def envCool : Env := { envBuy with lastBuy := fun _ => some 9900 }

/-- Like envBuy but a buy was filled 800 hours before now. -/
def envAfterCool : Env := { envBuy with lastBuy := fun _ => some 9200 }

/-- Like envBuy but the position endpoint answers 500 while a real
position of 10 shares exists behind the error. -/
def envPosErr : Env :=
  { envBuy with posStatus := fun _ => 500, posBody := fun _ => (10, 50) }

/-! ## Derived predicates -/

/-- No trade metadata is stored in an entry. -/
def metaFreeEntry (e : CacheEntry) : Prop :=
  e.heldQty = none ∧ e.lastAction = none ∧ e.lastActionTime = none ∧ e.purchaseDate = none

/-- No entry of the store carries trade metadata. -/
def metaFree (c : Cache) : Prop := ∀ p ∈ c.entries, metaFreeEntry p.2

/-! ## Helper lemmas -/

theorem close_calculate_rsi (d : Frame) : (calculate_rsi d).close = d.close := rfl

theorem rsi_calculate_rsi (d : Frame) :
    (calculate_rsi d).rsi = some (fun i => rsiAt d.close i) := rfl

theorem ma50_calculate_rsi (d : Frame) : (calculate_rsi d).ma50 = d.ma50 := rfl

theorem ma200_calculate_rsi (d : Frame) : (calculate_rsi d).ma200 = d.ma200 := rfl

theorem close_calculate_ma (d : Frame) : (calculate_moving_averages d).close = d.close := rfl

theorem ma50_calculate_ma (d : Frame) :
    (calculate_moving_averages d).ma50 = some (fun i => maAt d.close 50 i) := rfl

theorem ma200_calculate_ma (d : Frame) :
    (calculate_moving_averages d).ma200 = some (fun i => maAt d.close 200 i) := rfl

theorem rsi_calculate_ma (d : Frame) : (calculate_moving_averages d).rsi = d.rsi := rfl

theorem colAt_some (f : ℕ → Option ℚ) (i : ℕ) : colAt (some f) i = f i := rfl

theorem lookupEntry_setEntry_self (l : List (String × CacheEntry)) (t : String) (e : CacheEntry) :
    lookupEntry (setEntry l t e) t = some e := by
  induction l with
  | nil => simp [setEntry, lookupEntry]
  | cons kv rest ih =>
    obtain ⟨k, v⟩ := kv
    by_cases hk : k = t
    · simp [setEntry, lookupEntry, hk]
    · simp [setEntry, lookupEntry, hk, ih]

theorem lookupEntry_mem (l : List (String × CacheEntry)) (t : String) (e : CacheEntry)
    (h : lookupEntry l t = some e) : (t, e) ∈ l := by
  induction l with
  | nil => simp [lookupEntry] at h
  | cons kv rest ih =>
    obtain ⟨k, v⟩ := kv
    by_cases hk : k = t
    · subst hk
      simp [lookupEntry] at h
      subst h
      exact List.mem_cons_self _ _
    · simp [lookupEntry, hk] at h
      exact List.mem_cons_of_mem _ (ih h)

theorem metaFreeEntry_default : metaFreeEntry {} := ⟨rfl, rfl, rfl, rfl⟩

theorem metaFreeEntry_setData (e : CacheEntry) (f : Option Frame) (h : metaFreeEntry e) :
    metaFreeEntry { e with data := f } := h

theorem metaFree_setEntry (l : List (String × CacheEntry)) (t : String) (e : CacheEntry)
    (hl : ∀ p ∈ l, metaFreeEntry p.2) (he : metaFreeEntry e) :
    ∀ p ∈ setEntry l t e, metaFreeEntry p.2 := by
  induction l with
  | nil =>
    intro p hp
    simp [setEntry] at hp
    rw [hp]
    exact he
  | cons kv rest ih =>
    obtain ⟨k, v⟩ := kv
    intro p hp
    by_cases hk : k = t
    · simp [setEntry, hk] at hp
      rcases hp with hp | hp
      · rw [hp]; exact he
      · exact hl p (List.mem_cons_of_mem _ hp)
    · simp only [setEntry, if_neg hk] at hp
      rcases List.mem_cons.mp hp with hp | hp
      · rw [hp]; exact hl (k, v) (List.mem_cons_self _ _)
      · exact ih (fun q hq => hl q (List.mem_cons_of_mem _ hq)) p hp

theorem metaFree_updateEntryData (l : List (String × CacheEntry)) (t : String) (f : Frame)
    (hl : ∀ p ∈ l, metaFreeEntry p.2) :
    ∀ p ∈ updateEntryData l t f, metaFreeEntry p.2 := by
  induction l with
  | nil => intro p hp; simp [updateEntryData] at hp
  | cons kv rest ih =>
    obtain ⟨k, v⟩ := kv
    intro p hp
    by_cases hk : k = t
    · simp [updateEntryData, hk] at hp
      rcases hp with hp | hp
      · rw [hp]
        exact metaFreeEntry_setData v _ (hl (k, v) (List.mem_cons_self _ _))
      · exact hl p (List.mem_cons_of_mem _ hp)
    · simp only [updateEntryData, if_neg hk] at hp
      rcases List.mem_cons.mp hp with hp | hp
      · rw [hp]; exact hl (k, v) (List.mem_cons_self _ _)
      · exact ih (fun q hq => hl q (List.mem_cons_of_mem _ hq)) p hp

theorem fetchMiss_meta (env : Env) (t : String) (c : Cache)
    (res : Frame × Cache × Bool) (h : fetchMiss env t c = Except.ok res)
    (hc : metaFree c) : metaFree res.2.1 := by
  unfold fetchMiss at h
  cases hd : env.data t with
  | err => rw [hd] at h; exact absurd h (by simp)
  | ok closes =>
    rw [hd] at h
    simp only [Except.ok.injEq] at h
    have hbase : metaFreeEntry (match lookupEntry c.entries t with
        | some e => e
        | none => {}) := by
      cases hle : lookupEntry c.entries t with
      | some e => exact hc (t, e) (lookupEntry_mem _ _ _ hle)
      | none => exact metaFreeEntry_default
    rw [← h]
    exact metaFree_setEntry _ _ _ hc (metaFreeEntry_setData _ _ hbase)

theorem fetch_meta (env : Env) (t : String) (c : Cache)
    (res : Frame × Cache × Bool) (h : fetch_stock_data env t c = Except.ok res)
    (hc : metaFree c) : metaFree res.2.1 := by
  cases hle : lookupEntry c.entries t with
  | some e =>
    cases hdata : e.data with
    | some d =>
      simp only [fetch_stock_data, hle, hdata, Except.ok.injEq] at h
      rw [← h]
      exact hc
    | none =>
      simp only [fetch_stock_data, hle, hdata] at h
      exact fetchMiss_meta env t c res h hc
  | none =>
    simp only [fetch_stock_data, hle] at h
    exact fetchMiss_meta env t c res h hc

theorem processStock_meta (env : Env) (st : RunState) (t : String)
    (h : metaFree st.cache) : metaFree (processStock env st t).cache := by
  unfold processStock
  by_cases hab : st.aborted
  · simp [hab, h]
  · simp only [hab]
    by_cases hskip : skipStock t
    · simp [hskip, h]
    · simp only [hskip, Bool.false_eq_true, if_false, if_true]
      cases hf : fetch_stock_data env t st.cache with
      | error e => simp only [hf]; exact h
      | ok res =>
        obtain ⟨frame, cache1, fetched⟩ := res
        have hc1 : metaFree cache1 := fetch_meta env t st.cache _ hf h
        cases hs : execute_strategy env t frame with
        | error e =>
          simp only [hf, hs]
          exact metaFree_updateEntryData cache1.entries t _ hc1
        | ok r =>
          simp only [hf, hs]
          exact metaFree_updateEntryData cache1.entries t _ hc1

theorem foldl_meta (env : Env) (l : List String) (st : RunState)
    (h : metaFree st.cache) : metaFree (l.foldl (processStock env) st).cache := by
  induction l generalizing st with
  | nil => simpa using h
  | cons t rest ih => exact ih _ (processStock_meta env st t h)

theorem processStock_of_aborted (env : Env) (st : RunState) (t : String)
    (h : st.aborted = true) : processStock env st t = st := by
  simp [processStock, h]

theorem foldl_of_aborted (env : Env) (l : List String) (st : RunState)
    (h : st.aborted = true) : l.foldl (processStock env) st = st := by
  induction l with
  | nil => rfl
  | cons t rest ih => rw [List.foldl_cons, processStock_of_aborted env st t h, ih]

/-! ## Claim C1 -/

unseal Rat.add Rat.mul Rat.inv Rat.sub in
/-- Claim C1, counterexample: a run whose decision is Buy (the buy order
for 2 shares is placed) leaves the trade-metadata fields of the
cache entry of the symbol unset — the cache is not instructed to record held
quantity, last action, timestamp or purchase date. -/
theorem c1_trade_metadata_not_written_cex :
    (runMain envBuy ["AAA"] emptyCache).orders = [Order.buyOrder "AAA" 2] ∧
    metaOf (runMain envBuy ["AAA"] emptyCache).cache "AAA" = some (none, none, none, none) := by
  decide

/-- Claim C1 (corrected): no run ever creates or updates trade metadata
in the cache store — the source only ever assigns the data key of an
entry, so a store with no trade metadata still has none after any run,
including runs that place buy or sell orders. -/
theorem c1_run_never_writes_trade_metadata (env : Env) (stocks : List String) (cache : Cache)
    (h : metaFree cache) : metaFree (runMain env stocks cache).cache := by
  unfold runMain
  have hfold : metaFree ((stocks.foldl (processStock env)
      { cache := cache, outcomes := [], orders := [], sms := [], saveCount := 0,
        aborted := false, finalSaveDone := false })).cache :=
    foldl_meta env stocks _ h
  by_cases hab : (stocks.foldl (processStock env)
      { cache := cache, outcomes := [], orders := [], sms := [], saveCount := 0,
        aborted := false, finalSaveDone := false }).aborted = true
  · simpa [hab] using hfold
  · simpa [hab] using hfold

/-- Claim C1, witness for the amended theorem at a concrete run that
places a buy order. -/
theorem c1_run_never_writes_trade_metadata_witness :
    metaFree (runMain envBuy ["AAA"] emptyCache).cache :=
  c1_run_never_writes_trade_metadata envBuy ["AAA"] emptyCache
    (fun p hp => absurd hp (List.not_mem_nil p))

/-! ## Claim C2 -/

unseal Rat.add Rat.mul Rat.inv Rat.sub in
/-- Claim C2, counterexample: with a zero balance and two symbols of
sufficient data, both evaluations return Hold and place no order, but
the account-level alert is sent twice in the run — not exactly once. -/
theorem c2_balance_alert_once_per_run_cex :
    (runMain envZero ["AAA", "ABC"] emptyCache).sms =
      [SmsEvent.balanceAlert, SmsEvent.balanceAlert] ∧
    (runMain envZero ["AAA", "ABC"] emptyCache).orders = [] ∧
    (runMain envZero ["AAA", "ABC"] emptyCache).outcomes =
      [("AAA", Decision.hold), ("ABC", Decision.hold)] := by
  decide

/-- Claim C2 (corrected): when the account balance is non-positive,
every per-symbol evaluation that reaches the balance check returns Hold
with no order, and each such evaluation sends the account-level alert
itself — so the alert goes out once per symbol with sufficient data,
not once per run. -/
theorem c2_balance_alert_per_symbol (env : Env) (t : String) (df : Frame) (b : ℚ) (flag : String)
    (hlen : ¬ df.close.length < 200)
    (h50 : maAt df.close 50 (df.close.length - 1) ≠ none)
    (h200 : maAt df.close 200 (df.close.length - 1) ≠ none)
    (hr : rsiAt df.close (df.close.length - 1) ≠ none)
    (hacc : get_account_balance env = Except.ok (b, flag))
    (hb : b ≤ 0) :
    execute_strategy env t df = Except.ok ⟨Decision.hold, [], [SmsEvent.balanceAlert]⟩ := by
  simp only [execute_strategy, close_calculate_ma, close_calculate_rsi,
    ma50_calculate_ma, ma200_calculate_ma, rsi_calculate_ma, rsi_calculate_rsi,
    colAt_some, if_neg hlen, hacc]
  rw [if_neg (by push_neg; exact ⟨h50, h200, hr⟩)]
  rw [if_pos hb]

unseal Rat.add Rat.mul Rat.inv Rat.sub in
/-- Claim C2, witness for the per-symbol alert theorem at a concrete
zero-balance evaluation. -/
theorem c2_balance_alert_per_symbol_witness :
    execute_strategy envZero "AAA" demoFrame =
      Except.ok ⟨Decision.hold, [], [SmsEvent.balanceAlert]⟩ :=
  c2_balance_alert_per_symbol envZero "AAA" demoFrame 0 "ACTIVE"
    (by decide) (by decide) (by decide) (by decide) (by decide) (by decide)

/-! ## Claim C3 -/

/-- Claim C3, counterexample: when fetching the first instrument raises,
the run aborts — the remaining instrument is never processed, no
decision is recorded, and neither a per-fetch nor the final cache
persist happens. -/
theorem c3_instrument_failure_aborts_cex :
    (runMain envErr ["ERR", "AAA"] emptyCache).aborted = true ∧
    (runMain envErr ["ERR", "AAA"] emptyCache).outcomes = [] ∧
    (runMain envErr ["ERR", "AAA"] emptyCache).finalSaveDone = false ∧
    (runMain envErr ["ERR", "AAA"] emptyCache).saveCount = 0 := by
  decide

/-- Claim C3 (corrected): the main loop contains no error containment —
a fetch failure on one instrument propagates out of the loop and aborts
the whole run: no instrument is recorded as processed, the final cache
persist is skipped, and (when the failure hits the first instrument) no
save of the cache ever happens. -/
theorem c3_fetch_error_aborts_run (env : Env) (s : String) (rest : List String) (c : Cache)
    (hskip : skipStock s = false)
    (hnd : entryData c s = none)
    (herr : env.data s = FetchResult.err) :
    (runMain env (s :: rest) c).aborted = true ∧
    (runMain env (s :: rest) c).outcomes = [] ∧
    (runMain env (s :: rest) c).finalSaveDone = false ∧
    (runMain env (s :: rest) c).saveCount = 0 := by
  have hfetch : fetch_stock_data env s c = Except.error () := by
    cases hle : lookupEntry c.entries s with
    | some e =>
      have hdata : e.data = none := by simpa [entryData, hle] using hnd
      simp only [fetch_stock_data, hle, hdata, fetchMiss, herr]
    | none => simp only [fetch_stock_data, hle, fetchMiss, herr]
  have hrun : runMain env (s :: rest) c =
      { cache := c, outcomes := [], orders := [], sms := [], saveCount := 0,
        aborted := true, finalSaveDone := false } := by
    unfold runMain
    rw [List.foldl_cons]
    have hstep : processStock env
        { cache := c, outcomes := [], orders := [], sms := [], saveCount := 0,
          aborted := false, finalSaveDone := false } s =
        { cache := c, outcomes := [], orders := [], sms := [], saveCount := 0,
          aborted := true, finalSaveDone := false } := by
      simp only [processStock, hskip, hfetch]
      rfl
    rw [hstep, foldl_of_aborted env rest _ rfl]
    rfl
  rw [hrun]
  exact ⟨rfl, rfl, rfl, rfl⟩

/-- Claim C3, witness for the abort theorem at a concrete failing
universe. -/
theorem c3_fetch_error_aborts_run_witness :
    (runMain envErr ["ERR"] emptyCache).aborted = true ∧
    (runMain envErr ["ERR"] emptyCache).outcomes = [] ∧
    (runMain envErr ["ERR"] emptyCache).finalSaveDone = false ∧
    (runMain envErr ["ERR"] emptyCache).saveCount = 0 :=
  c3_fetch_error_aborts_run envErr "ERR" [] emptyCache (by decide) rfl (by decide)

/-! ## Claim C4 -/

/-- Claim C4, counterexample: loading a corrupt cache file raises (it
does not return an empty store), and the run with a corrupt cache file
aborts before processing anything instead of proceeding. -/
theorem c4_corrupt_cache_load_raises_cex :
    load_cache FileState.corrupt = Except.error () ∧
    (mainFull FileState.corrupt envBuy ["AAA"] "2024-01-01").aborted = true ∧
    (mainFull FileState.corrupt envBuy ["AAA"] "2024-01-01").orders = [] :=
  ⟨rfl, rfl, rfl⟩

/-- Claim C4 (corrected): load_cache yields the empty store only when
the cache file is missing; a corrupt or unreadable file makes the
unpickling raise, which aborts the run before any instrument is
processed, rather than being treated as cache-miss-everything. -/
theorem c4_load_cache_behavior :
    load_cache FileState.missing = Except.ok emptyCache ∧
    load_cache FileState.corrupt = Except.error () ∧
    ∀ (env : Env) (stocks : List String) (today : String),
      (mainFull FileState.corrupt env stocks today).aborted = true ∧
      (mainFull FileState.corrupt env stocks today).orders = [] :=
  ⟨rfl, rfl, fun _ _ _ => ⟨rfl, rfl⟩⟩

/-! ## Claim C5 -/

/-- Claim C5, counterexample: the indicator computations hand back a
frame different from their input — the source assigns the new columns
on the very DataFrame object it was given, so the input object after
the call (which is the returned object) is not the original frame. -/
theorem c5_indicators_mutate_input_cex :
    calculate_rsi demoFrame ≠ demoFrame ∧
    calculate_moving_averages demoFrame ≠ demoFrame :=
  ⟨fun h => Option.noConfusion (congrArg Frame.rsi h),
   fun h => Option.noConfusion (congrArg Frame.ma50 h)⟩

/-- Claim C5 (corrected): the indicator computation enriches the frame
in place rather than returning an untouched input: the close data is
preserved, but the returned object — which is the input object — now
carries the RSI and moving-average columns computed from the close
column. -/
theorem c5_indicators_enrich_in_place (df : Frame) :
    (calculate_rsi df).close = df.close ∧
    (calculate_moving_averages df).close = df.close ∧
    (calculate_rsi df).rsi = some (fun i => rsiAt df.close i) ∧
    (calculate_moving_averages df).ma50 = some (fun i => maAt df.close 50 i) ∧
    (calculate_moving_averages df).ma200 = some (fun i => maAt df.close 200 i) :=
  ⟨rfl, rfl, rfl, rfl, rfl⟩

/-! ## Claim C6 -/

/-- Claim C6 (confirmed): for a symbol with no series stored in the
current store, the first fetch_stock_data call performs exactly one
remote fetch and stores the series, and a second call within the same
epoch returns the stored series from the resulting store without any
remote call, leaving the store unchanged — a symbol is never re-fetched
within an epoch. -/
theorem c6_fetch_idempotent_per_epoch (env : Env) (t : String) (c : Cache) (closes : List ℚ)
    (hnd : entryData c t = none)
    (hok : env.data t = FetchResult.ok closes) :
    ∃ c2 : Cache,
      fetch_stock_data env t c = Except.ok ({ close := closes }, c2, true) ∧
      fetch_stock_data env t c2 = Except.ok ({ close := closes }, c2, false) := by
  cases hle : lookupEntry c.entries t with
  | some e =>
    have hdata : e.data = none := by
      simpa [entryData, hle] using hnd
    refine ⟨{ c with entries := setEntry c.entries t { e with data := some { close := closes } } }, ?_, ?_⟩
    · simp only [fetch_stock_data, hle, hdata, fetchMiss, hok]
    · simp only [fetch_stock_data, lookupEntry_setEntry_self]
  | none =>
    refine ⟨{ c with entries := setEntry c.entries t { data := some { close := closes } } }, ?_, ?_⟩
    · simp only [fetch_stock_data, hle, fetchMiss, hok]
    · simp only [fetch_stock_data, lookupEntry_setEntry_self]

/-- Claim C6, witness at a concrete empty store and ticker. -/
theorem c6_fetch_idempotent_per_epoch_witness :
    ∃ c2 : Cache,
      fetch_stock_data envBuy "AAA" emptyCache =
        Except.ok ({ close := demoSeries }, c2, true) ∧
      fetch_stock_data envBuy "AAA" c2 =
        Except.ok ({ close := demoSeries }, c2, false) :=
  c6_fetch_idempotent_per_epoch envBuy "AAA" emptyCache demoSeries rfl rfl

/-! ## Claim C7 -/

/-- Claim C7 (confirmed): clear_cache_if_needed returns a fresh empty
store stamped with the current date whenever the stored date is absent
or different, and returns the store completely unchanged when the
stored date equals the current date. -/
theorem c7_clear_cache_if_needed_spec (c : Cache) (d : String) :
    (c.date ≠ some d → clear_cache_if_needed c d = { date := some d, entries := [] }) ∧
    (c.date = some d → clear_cache_if_needed c d = c) := by
  constructor
  · intro h; simp [clear_cache_if_needed, h]
  · intro h; simp [clear_cache_if_needed, h]

/-- Claim C7, witness: a stale store is reset and a same-day store with
an entry is preserved, entries included. -/
theorem c7_clear_cache_if_needed_spec_witness :
    clear_cache_if_needed { date := some "2024-01-01", entries := [] } "2024-01-02" =
      { date := some "2024-01-02", entries := [] } ∧
    clear_cache_if_needed { date := some "2024-01-02", entries := [("AAA", {})] } "2024-01-02" =
      { date := some "2024-01-02", entries := [("AAA", {})] } :=
  ⟨(c7_clear_cache_if_needed_spec _ _).1 (by decide),
   (c7_clear_cache_if_needed_spec _ _).2 rfl⟩

/-! ## Claim C8 -/

/-- Claim C8 (confirmed): with fewer than 200 bars, or an undefined
RSI, 50-bar MA or 200-bar MA on the latest bar, execute_strategy
returns Hold with no order and no notification, regardless of any
indicator value. -/
theorem c8_insufficient_data_holds (env : Env) (t : String) (df : Frame)
    (h : df.close.length < 200 ∨
      maAt df.close 50 (df.close.length - 1) = none ∨
      maAt df.close 200 (df.close.length - 1) = none ∨
      rsiAt df.close (df.close.length - 1) = none) :
    execute_strategy env t df = Except.ok ⟨Decision.hold, [], []⟩ := by
  by_cases hlen : df.close.length < 200
  · simp only [execute_strategy, close_calculate_ma, close_calculate_rsi, if_pos hlen]
  · simp only [execute_strategy, close_calculate_ma, close_calculate_rsi,
      ma50_calculate_ma, ma200_calculate_ma, rsi_calculate_ma, rsi_calculate_rsi,
      colAt_some, if_neg hlen]
    rcases h with h | h | h | h
    · exact absurd h hlen
    · rw [if_pos (Or.inl h)]
    · rw [if_pos (Or.inr (Or.inl h))]
    · rw [if_pos (Or.inr (Or.inr h))]

/-- Claim C8, witness at a three-bar series. -/
theorem c8_insufficient_data_holds_witness :
    execute_strategy envBuy "XYZ" { close := [1, 2, 3] } =
      Except.ok ⟨Decision.hold, [], []⟩ :=
  c8_insufficient_data_holds envBuy "XYZ" { close := [1, 2, 3] } (Or.inl (by decide))

/-! ## Claim C9 -/

/-- Claim C9 (confirmed): with a prior filled buy, if less than the
720-hour cooldown has elapsed, execute_strategy returns Hold no matter
the indicators; if at least the cooldown has elapsed, the gate does not
block a buy — when the buy conditions hold, the buy order for the
computed share count is placed. -/
theorem c9_cooldown_gate (env : Env) (t : String) (df : Frame)
    (b : ℚ) (flag : String) (m50 m200 r tb : ℚ)
    (hlen : ¬ df.close.length < 200)
    (h50 : maAt df.close 50 (df.close.length - 1) = some m50)
    (h200 : maAt df.close 200 (df.close.length - 1) = some m200)
    (hr : rsiAt df.close (df.close.length - 1) = some r)
    (hacc : get_account_balance env = Except.ok (b, flag))
    (hb : ¬ b ≤ 0)
    (hlb : env.lastBuy t = some tb) :
    (env.now - tb < COOLDOWN_PERIOD_HOURS →
      execute_strategy env t df = Except.ok ⟨Decision.hold, [], []⟩) ∧
    (¬ env.now - tb < COOLDOWN_PERIOD_HOURS →
      m50 > m200 → r < 30 → (get_position env t).1 = 0 →
      0 < calculate_shares_to_buy (getQ df.close (df.close.length - 1)) b →
      execute_strategy env t df = Except.ok
        ⟨Decision.buy (calculate_shares_to_buy (getQ df.close (df.close.length - 1)) b),
         [Order.buyOrder t (calculate_shares_to_buy (getQ df.close (df.close.length - 1)) b)],
         [SmsEvent.buyPlaced t (calculate_shares_to_buy (getQ df.close (df.close.length - 1)) b)]⟩) := by
  have hstep : execute_strategy env t df =
      (if env.now - tb < COOLDOWN_PERIOD_HOURS then Except.ok ⟨Decision.hold, [], []⟩
       else Except.ok (tradeStep t m50 m200 r (getQ df.close (df.close.length - 1)) b
         (get_position env t).1)) := by
    simp only [execute_strategy, close_calculate_ma, close_calculate_rsi,
      ma50_calculate_ma, ma200_calculate_ma, rsi_calculate_ma, rsi_calculate_rsi,
      colAt_some, if_neg hlen, hacc, h50, h200, hr, hlb]
    rw [if_neg (by simp)]
    rw [if_neg hb]
    rfl
  constructor
  · intro hcool; rw [hstep, if_pos hcool]
  · intro hcool hm hr30 hq hsh
    rw [hstep, if_neg hcool]
    simp only [tradeStep, hq, if_pos hsh]
    rw [if_pos (And.intro hm (And.intro hr30 True.intro))]

unseal Rat.add Rat.mul Rat.inv Rat.sub in
/-- Claim C9, witness: a buy 100 hours after the last fill is held by
the cooldown gate, and the same setup 800 hours after the fill places
the buy order for 2 shares. -/
theorem c9_cooldown_gate_witness :
    execute_strategy envCool "AAA" demoFrame = Except.ok ⟨Decision.hold, [], []⟩ ∧
    execute_strategy envAfterCool "AAA" demoFrame =
      Except.ok ⟨Decision.buy 2, [Order.buyOrder "AAA" 2], [SmsEvent.buyPlaced "AAA" 2]⟩ := by
  constructor
  · exact (c9_cooldown_gate envCool "AAA" demoFrame 10000 "ACTIVE" (979/10) (1279/40) 0 9900
      (by decide) (by decide) (by decide) (by decide) (by decide) (by decide) (by decide)).1
      (by decide)
  · exact ((c9_cooldown_gate envAfterCool "AAA" demoFrame 10000 "ACTIVE" (979/10) (1279/40) 0 9200
      (by decide) (by decide) (by decide) (by decide) (by decide) (by decide) (by decide)).2
      (by decide) (by decide) (by decide) (by decide) (by decide)).trans (by decide)

/-! ## Claim C10 -/

/-- Claim C10 (confirmed): every non-200 response of the position
endpoint — 404 but also authentication or server errors — makes
get_position return the pair (0, 0), indistinguishable from holding no
position. -/
theorem c10_get_position_non200_zero (env : Env) (t : String)
    (h : env.posStatus t ≠ 200) : get_position env t = (0, 0) := by
  simp [get_position, h]

/-- Claim C10, witness: a 500 answer while a real 10-share position
exists behind the error still reports (0, 0). -/
theorem c10_get_position_non200_zero_witness :
    get_position envPosErr "AAA" = (0, 0) :=
  c10_get_position_non200_zero envPosErr "AAA" (by decide)
